import Mathlib

/-!
# Verification of the finMeta financial-report validation core (`src/app.py`)

Shallow embedding of the validation pipeline in `app.py`:
the compliance-score heuristic (`_calculate_compliance_score`), the prompt
builders (`meta_prompt_generator`, `self_reflection_prompt`, the four
`PromptTemplate` bodies), the four agents' `validate_*` methods, and the
orchestration loop of `main` (agent selection, per-agent failure isolation,
aggregate score and issue count).

The LLM client (`LLMChain.run` / `OpenAI`) is modelled as an oracle
`String → Except String String`: it receives the fully formatted prompt and
either returns the completion text or fails (a raised exception in Python).
Timestamps (`datetime.now().isoformat()`) are threaded as an explicit `now`
parameter.  Streamlit display calls are not part of the core's data flow and
are dropped, except that `st.error(f"Error in {agent_name} validation: ...")`
is recorded as a failure entry, and the dashboard's aggregate metrics
(lines 532 and 540) are embedded as `overall_compliance` and `issues_found`.
-/

namespace FinMeta

/-! ## Strings: case folding and substring containment

Python's `indicator in analysis_text.lower()` is a case-folded substring
containment test.  We model text as `List Char`; `containsSub needle hay`
checks whether `needle` occurs contiguously in `hay`. -/

/-- Python's `needle in hay` on strings: `needle` occurs contiguously in
`hay` (the empty needle occurs in every string). -/
def containsSub (needle : List Char) : List Char → Bool
  | [] => needle.isEmpty
  | c :: rest => needle.isPrefixOf (c :: rest) || containsSub needle rest

/-- `indicator in analysis_text.lower()` from `_calculate_compliance_score`
(the indicators are lowercase literals, so only the text is folded). -/
def markerIn (indicator : String) (analysis_text : String) : Bool :=
  containsSub indicator.data (analysis_text.data.map Char.toLower)

/-! ## ScoreHeuristic (`_calculate_compliance_score`, app.py lines 161-172)

The same method body is repeated verbatim in all four agent classes; it is
embedded once. -/

/-- `positive_indicators` (app.py line 164). -/
def positive_indicators : List String :=
  ["compliant", "adequate", "proper", "correct", "complete"]

/-- `negative_indicators` (app.py line 165). -/
def negative_indicators : List String :=
  ["missing", "incomplete", "non-compliant", "inadequate", "error"]

/-- `_calculate_compliance_score` (app.py lines 161-172):
`sum(1 for indicator in positive_indicators if indicator in analysis_text.lower())`
is a presence count (each indicator contributes at most 1), then
`max(0, min(100, 50 + positive_count*10 - negative_count*15))`. -/
def calculate_compliance_score (analysis_text : String) : Int :=
  let positive_count : Int :=
    ((positive_indicators.filter (fun indicator => markerIn indicator analysis_text)).length : Int)
  let negative_count : Int :=
    ((negative_indicators.filter (fun indicator => markerIn indicator analysis_text)).length : Int)
  let base_score : Int := 50
  let score := base_score + positive_count * 10 - negative_count * 15
  max 0 (min 100 score)

/-! ### Spec-side reading of the score (for claim C1)

The spec sentence behind C1 reads the heuristic as counting *occurrences*
("a marker appearing twice counts twice").  `countOccs` is that reading:
the number of starting positions at which the marker matches. -/

/-- Number of (possibly overlapping) occurrences of `needle` in `hay`:
the number of positions where `needle` is a prefix of the remaining text. -/
def countOccs (needle : List Char) : List Char → Nat
  | [] => if needle.isEmpty then 1 else 0
  | c :: rest => (if needle.isPrefixOf (c :: rest) then 1 else 0) + countOccs needle rest

/-- The score as the spec's words describe it for C1: every occurrence of
every marker counts, then the same clamp. -/
def spec_score_occurrences (analysis_text : String) : Int :=
  let lower := analysis_text.data.map Char.toLower
  let positive_count : Int := ((positive_indicators.map (fun m => countOccs m.data lower)).sum : Int)
  let negative_count : Int := ((negative_indicators.map (fun m => countOccs m.data lower)).sum : Int)
  max 0 (min 100 (50 + positive_count * 10 - negative_count * 15))

/-- The score with presence counting stated independently of the code's
boolean test: a marker is counted iff it is an infix (`<:+:`) of the folded
text.  Used to state the amended C1. -/
def spec_score_presence (analysis_text : String) : Int :=
  let lower := analysis_text.data.map Char.toLower
  let positive_count : Int :=
    ((positive_indicators.countP (fun m => decide (m.data <:+: lower))) : Int)
  let negative_count : Int :=
    ((negative_indicators.countP (fun m => decide (m.data <:+: lower))) : Int)
  max 0 (min 100 (50 + positive_count * 10 - negative_count * 15))

/-! ## Prompt builders

The Python prompts are f-strings / `PromptTemplate` bodies (triple-quoted,
so they begin with a newline and keep the source indentation).  `chain.run`
formats the template (substituting `{financial_text}` / `{criteria}`) and
sends the resulting string to the LLM. -/

/-- `"\n".join(f"- {c}" for c in criteria)` (used for the `criteria` template
variable and for the meta prompt's bullet list). -/
def joinBullets (criteria : List String) : String :=
  String.intercalate "\n" (criteria.map (fun c => "- " ++ c))

/-- `meta_prompt_generator` (app.py lines 30-52). -/
def meta_prompt_generator (agent_name task_description : String)
    (validation_criteria : List String) : String :=
  "\n        You are an expert prompt engineer and " ++ (agent_name ++ (" validation specialist. \n        Your task is to create the most effective prompt for validating financial statements.\n        \n        TASK: " ++ (task_description ++ ("\n        \n        VALIDATION CRITERIA:\n        " ++ (joinBullets validation_criteria ++ "\n        \n        Using meta prompting principles, create a systematic validation framework that:\n        1. Breaks down complex validation into manageable subtasks\n        2. Uses structured thinking and self-reflection\n        3. Implements recursive checking for accuracy\n        4. Provides clear, actionable feedback\n        5. Follows regulatory compliance requirements\n        \n        Generate an optimized prompt that will ensure thorough and accurate validation.\n        ")))))

/-- `self_reflection_prompt` (app.py lines 54-73). -/
def self_reflection_prompt (validation_result : String) : String :=
  "\n        Review your validation analysis below and perform self-reflection:\n        \n        VALIDATION RESULT:\n        " ++ (validation_result ++ "\n        \n        Self-reflection questions:\n        1. Did I check all required disclosure items?\n        2. Are my findings supported by specific evidence from the document?\n        3. Have I considered materiality thresholds?\n        4. Are there any inconsistencies I missed?\n        5. Do my recommendations align with regulatory requirements?\n        \n        Provide an improved validation analysis addressing any gaps identified.\n        ")

/-- The Balance Sheet `PromptTemplate` body (app.py lines 101-136), with
`{financial_text}` and `{criteria}` substituted as `chain.run` does. -/
def balance_sheet_validation_prompt (financial_text criteria : String) : String :=
  "\n            You are an expert financial analyst specializing in Balance Sheet validation.\n            \n            FINANCIAL STATEMENT TEXT:\n            " ++ (financial_text ++ ("\n            \n            VALIDATION CRITERIA:\n            " ++ (criteria ++ "\n            \n            Perform systematic validation using this framework:\n            \n            1. STRUCTURAL ANALYSIS:\n               - Verify current/non-current classification\n               - Check line item presentations\n               - Validate mathematical accuracy\n            \n            2. DISCLOSURE COMPLIANCE:\n               - Assess mandatory disclosures per Schedule III\n               - Check notes cross-references\n               - Verify comparative figures\n            \n            3. REGULATORY REQUIREMENTS:\n               - Materiality considerations\n               - Rounding consistency\n               - Related party disclosures\n            \n            4. QUALITY ASSESSMENT:\n               - Identify missing information\n               - Flag potential red flags\n               - Provide improvement recommendations\n            \n            Provide detailed findings with specific line references.\n            ")))

/-- The Profit & Loss `PromptTemplate` body (app.py lines 193-230). -/
def profit_loss_validation_prompt (financial_text criteria : String) : String :=
  "\n            You are an expert financial analyst specializing in Statement of Profit and Loss validation.\n            \n            FINANCIAL STATEMENT TEXT:\n            " ++ (financial_text ++ ("\n            \n            VALIDATION FRAMEWORK:\n            \n            1. REVENUE ANALYSIS:\n               - Verify revenue from operations classification\n               - Check other income segregation\n               - Assess revenue recognition policies\n            \n            2. EXPENSE VALIDATION:\n               - Employee benefits expense breakdown\n               - Finance costs classification\n               - Depreciation and amortization\n               - Other expenses categorization\n            \n            3. PROFIT COMPUTATION:\n               - Exceptional items treatment\n               - Tax expense validation\n               - Discontinued operations\n               - Other comprehensive income\n            \n            4. DISCLOSURE REQUIREMENTS:\n               - Earnings per share calculation\n               - Additional information notes\n               - Prior period comparatives\n            \n            VALIDATION CRITERIA:\n            " ++ (criteria ++ "\n            \n            Provide systematic analysis with compliance assessment.\n            ")))

/-- The Cash Flow `PromptTemplate` body (app.py lines 276-310). -/
def cash_flow_validation_prompt (financial_text criteria : String) : String :=
  "\n            You are an expert financial analyst specializing in Cash Flow Statement validation.\n            \n            FINANCIAL STATEMENT TEXT:\n            " ++ (financial_text ++ ("\n            \n            VALIDATION FRAMEWORK:\n            \n            1. OPERATING ACTIVITIES:\n               - Direct vs indirect method\n               - Working capital changes\n               - Non-cash adjustments\n            \n            2. INVESTING ACTIVITIES:\n               - Capital expenditure\n               - Investment transactions\n               - Asset disposals\n            \n            3. FINANCING ACTIVITIES:\n               - Borrowing activities\n               - Equity transactions\n               - Dividend payments\n            \n            4. RECONCILIATION & DISCLOSURE:\n               - Opening/closing cash reconciliation\n               - Non-cash transactions\n               - Restricted cash disclosure\n            \n            CRITERIA: " ++ (criteria ++ "\n            \n            Provide comprehensive validation analysis.\n            ")))

/-- The Notes `PromptTemplate` body (app.py lines 356-393). -/
def notes_validation_prompt (financial_text criteria : String) : String :=
  "\n            You are an expert financial analyst specializing in Notes to Financial Statements validation.\n            \n            FINANCIAL STATEMENT TEXT:\n            " ++ (financial_text ++ ("\n            \n            VALIDATION FRAMEWORK:\n            \n            1. ACCOUNTING POLICIES:\n               - Revenue recognition policy\n               - Depreciation methods\n               - Inventory valuation\n               - Investment classification\n            \n            2. DETAILED DISCLOSURES:\n               - Asset breakdowns and reconciliations\n               - Liability terms and conditions\n               - Equity movements\n               - Income and expense analysis\n            \n            3. REGULATORY COMPLIANCE:\n               - Related party disclosures\n               - Contingent liabilities\n               - Commitments\n               - Subsequent events\n            \n            4. ADEQUACY ASSESSMENT:\n               - Information completeness\n               - Clarity and understandability\n               - Cross-reference accuracy\n            \n            CRITERIA: " ++ (criteria ++ "\n            \n            Provide detailed validation with specific improvement recommendations.\n            ")))

/-! ## Agent criteria lists (fixed at construction) -/

/-- `BalanceSheetAgent.validation_criteria` (app.py lines 80-89). -/
def balance_sheet_criteria : List String :=
  ["Current vs Non-current asset/liability classification",
   "Property, Plant and Equipment disclosures",
   "Investment classifications and fair value disclosures",
   "Trade receivables aging and bad debt provisions",
   "Share capital and reserves composition",
   "Borrowings classification and security details",
   "Related party transactions disclosure",
   "Contingent liabilities and commitments"]

/-- `ProfitLossAgent.validation_criteria` (app.py lines 179-188). -/
def profit_loss_criteria : List String :=
  ["Revenue recognition and classification",
   "Operating vs non-operating income segregation",
   "Expense categorization and disclosure",
   "Exceptional and extraordinary items",
   "Tax expense calculation and deferred tax",
   "Earnings per share computation",
   "Other comprehensive income items",
   "Related party transaction disclosures"]

/-- `CashFlowAgent.validation_criteria` (app.py lines 263-271). -/
def cash_flow_criteria : List String :=
  ["Operating activities cash flow presentation",
   "Investing activities classification",
   "Financing activities segregation",
   "Reconciliation with net income",
   "Non-cash transactions disclosure",
   "Cash and cash equivalents definition",
   "Foreign exchange impact"]

/-- `NotesAgent.validation_criteria` (app.py lines 342-351). -/
def notes_criteria : List String :=
  ["Accounting policies disclosure",
   "Significant estimates and judgments",
   "Property, plant and equipment details",
   "Investment classification and valuation",
   "Borrowings terms and conditions",
   "Related party relationships and transactions",
   "Contingent liabilities and commitments",
   "Subsequent events disclosure"]

/-! ## Validation results and the completion client

`LLMChain.run` with the module's `OpenAI(temperature=0.2, ...)` client is
modelled as an oracle taking the formatted prompt and returning either the
completion text or a failure (a raised exception).  Each `validate_*`
returns the outcome together with the list of prompts actually sent, in
order, so that completion calls can be counted. -/

/-- The completion client: prompt in, completion text or failure out. -/
def Completion : Type := String → Except String String

/-- The dict returned by the `validate_*` methods.  The Balance Sheet agent
fills `initial_analysis`/`refined_analysis`; the other three fill
`analysis` (app.py lines 153-159, 238-243, 318-323, 401-406). -/
structure ValidationResult where
  agent : String
  analysis : Option String
  initial_analysis : Option String
  refined_analysis : Option String
  compliance_score : Int
  timestamp : String
deriving DecidableEq, Repr

/-- `BalanceSheetAgent.validate_balance_sheet` (app.py lines 91-159):
builds (but never sends) the meta prompt, runs the domain prompt, runs a
self-reflection pass over the initial result, and scores the refined text. -/
def validate_balance_sheet (complete : Completion) (now financial_text : String) :
    Except String ValidationResult × List String :=
  let meta_prompt := meta_prompt_generator "Balance Sheet Validation"
      "Validate Balance Sheet compliance with Schedule III Division II requirements"
      balance_sheet_criteria
  let prompt1 := balance_sheet_validation_prompt financial_text (joinBullets balance_sheet_criteria)
  match complete prompt1 with
  | Except.error e => (Except.error e, [prompt1])
  | Except.ok initial_result =>
      let prompt2 := self_reflection_prompt initial_result
      match complete prompt2 with
      | Except.error e => (Except.error e, [prompt1, prompt2])
      | Except.ok final_result =>
          (Except.ok
            { agent := "Balance Sheet",
              analysis := none,
              initial_analysis := some initial_result,
              refined_analysis := some final_result,
              compliance_score := calculate_compliance_score final_result,
              timestamp := now },
           [prompt1, prompt2])

/-- `validate_balance_sheet` with the dead `meta_prompt = ...` statement
deleted (app.py lines 95-98 removed); used to state claim C10. -/
def validate_balance_sheet_without_meta (complete : Completion) (now financial_text : String) :
    Except String ValidationResult × List String :=
  let prompt1 := balance_sheet_validation_prompt financial_text (joinBullets balance_sheet_criteria)
  match complete prompt1 with
  | Except.error e => (Except.error e, [prompt1])
  | Except.ok initial_result =>
      let prompt2 := self_reflection_prompt initial_result
      match complete prompt2 with
      | Except.error e => (Except.error e, [prompt1, prompt2])
      | Except.ok final_result =>
          (Except.ok
            { agent := "Balance Sheet",
              analysis := none,
              initial_analysis := some initial_result,
              refined_analysis := some final_result,
              compliance_score := calculate_compliance_score final_result,
              timestamp := now },
           [prompt1, prompt2])

/-- `ProfitLossAgent.validate_profit_loss` (app.py lines 190-243). -/
def validate_profit_loss (complete : Completion) (now financial_text : String) :
    Except String ValidationResult × List String :=
  let prompt := profit_loss_validation_prompt financial_text (joinBullets profit_loss_criteria)
  match complete prompt with
  | Except.error e => (Except.error e, [prompt])
  | Except.ok result =>
      (Except.ok
        { agent := "Profit & Loss",
          analysis := some result,
          initial_analysis := none,
          refined_analysis := none,
          compliance_score := calculate_compliance_score result,
          timestamp := now },
       [prompt])

/-- `CashFlowAgent.validate_cash_flow` (app.py lines 273-323). -/
def validate_cash_flow (complete : Completion) (now financial_text : String) :
    Except String ValidationResult × List String :=
  let prompt := cash_flow_validation_prompt financial_text (joinBullets cash_flow_criteria)
  match complete prompt with
  | Except.error e => (Except.error e, [prompt])
  | Except.ok result =>
      (Except.ok
        { agent := "Cash Flow",
          analysis := some result,
          initial_analysis := none,
          refined_analysis := none,
          compliance_score := calculate_compliance_score result,
          timestamp := now },
       [prompt])

/-- `NotesAgent.validate_notes` (app.py lines 353-406). -/
def validate_notes (complete : Completion) (now financial_text : String) :
    Except String ValidationResult × List String :=
  let prompt := notes_validation_prompt financial_text (joinBullets notes_criteria)
  match complete prompt with
  | Except.error e => (Except.error e, [prompt])
  | Except.ok result =>
      (Except.ok
        { agent := "Notes",
          analysis := some result,
          initial_analysis := none,
          refined_analysis := none,
          compliance_score := calculate_compliance_score result,
          timestamp := now },
       [prompt])

/-! ## Orchestrator (`main`, app.py lines 487-540)

`main` builds the `agents` list in checkbox order (Balance Sheet, P&L,
Cash Flow, Notes — lines 491-499), then runs each agent inside a
`try/except` that records an error message and continues (lines 505-523).
An agent is identified in the loop by its tuple name; the four names are
distinct, so the string dispatch of lines 509-516 is an exact match on the
agent kind. -/

/-- The four agent kinds appended to `agents` in `main`. -/
inductive AgentName where
  | balanceSheet
  | profitLoss
  | cashFlow
  | notes
deriving DecidableEq, Repr

/-- The loop's tuple name for each agent (app.py lines 493-499). -/
def loopName : AgentName → String
  | AgentName.balanceSheet => "Balance Sheet"
  | AgentName.profitLoss => "P&L"
  | AgentName.cashFlow => "Cash Flow"
  | AgentName.notes => "Notes"

/-- The `agent` field of the result dict each agent returns. -/
def result_agent_label : AgentName → String
  | AgentName.balanceSheet => "Balance Sheet"
  | AgentName.profitLoss => "Profit & Loss"
  | AgentName.cashFlow => "Cash Flow"
  | AgentName.notes => "Notes"

/-- The four sidebar checkboxes (app.py lines 452-455). -/
structure EnabledAgents where
  validate_balance_sheet : Bool
  validate_profit_loss : Bool
  validate_cash_flow : Bool
  validate_notes : Bool
deriving DecidableEq, Repr

/-- The `agents` list of `main` (app.py lines 491-499): fixed checkbox
order, filtered to the enabled checkboxes. -/
def agentsFor (e : EnabledAgents) : List AgentName :=
  (if e.validate_balance_sheet then [AgentName.balanceSheet] else []) ++
  (if e.validate_profit_loss then [AgentName.profitLoss] else []) ++
  (if e.validate_cash_flow then [AgentName.cashFlow] else []) ++
  (if e.validate_notes then [AgentName.notes] else [])

/-- The canonical agent order of the checkbox block. -/
def canonical_agent_order : List AgentName :=
  [AgentName.balanceSheet, AgentName.profitLoss, AgentName.cashFlow, AgentName.notes]

/-- Whether a kind is enabled by the checkbox record. -/
def isEnabled (e : EnabledAgents) : AgentName → Bool
  | AgentName.balanceSheet => e.validate_balance_sheet
  | AgentName.profitLoss => e.validate_profit_loss
  | AgentName.cashFlow => e.validate_cash_flow
  | AgentName.notes => e.validate_notes

/-- The dispatch of app.py lines 509-516 (`if agent_name == "Balance Sheet":
... elif ...`), which selects the matching `validate_*` method. -/
def runAgentValidation (complete : Completion) (now financial_text : String) :
    AgentName → Except String ValidationResult × List String
  | AgentName.balanceSheet => validate_balance_sheet complete now financial_text
  | AgentName.profitLoss => validate_profit_loss complete now financial_text
  | AgentName.cashFlow => validate_cash_flow complete now financial_text
  | AgentName.notes => validate_notes complete now financial_text

/-- Observable outcome of `main`'s validation loop: the collected
`validation_results`, the `st.error` failure records (agent loop name and
message), and every prompt sent to the completion client, in order. -/
structure RunOutcome where
  validation_results : List ValidationResult
  failures : List (String × String)
  prompts : List String
deriving DecidableEq, Repr

/-- The loop of app.py lines 505-523: each agent is validated inside
`try/except`; on success the result is appended, on failure
`st.error(f"Error in {agent_name} validation: {str(e)}")` is shown and the
loop continues with the next agent. -/
def runAgents (complete : Completion) (now financial_text : String) :
    List AgentName → RunOutcome
  | [] => { validation_results := [], failures := [], prompts := [] }
  | a :: rest =>
      let step := runAgentValidation complete now financial_text a
      let tail := runAgents complete now financial_text rest
      match step.1 with
      | Except.ok result =>
          { validation_results := result :: tail.validation_results,
            failures := tail.failures,
            prompts := step.2 ++ tail.prompts }
      | Except.error e =>
          { validation_results := tail.validation_results,
            failures := (loopName a, "Error in " ++ loopName a ++ " validation: " ++ e) :: tail.failures,
            prompts := step.2 ++ tail.prompts }

/-- One full orchestrator run: build the enabled agents list and run the
validation loop (app.py lines 487-525). -/
def run_validation (complete : Completion) (now financial_text : String)
    (e : EnabledAgents) : RunOutcome :=
  runAgents complete now financial_text (agentsFor e)

/-- `avg_score` of the dashboard (app.py line 532):
`sum(r.get('compliance_score', 0) for r in validation_results) / len(validation_results)`.
The code computes it only under `if validation_results:`; on the empty list
this embedding returns 0 (rational division by zero), the edge-case value
the spec documents. -/
def overall_compliance (validation_results : List ValidationResult) : ℚ :=
  ((((validation_results.map (fun r => r.compliance_score)).sum : Int) : ℚ)) /
    ((validation_results.length : ℚ))

/-- "Issues Found" of the dashboard (app.py line 540):
`sum(1 for r in validation_results if r.get('compliance_score', 100) < 80)`. -/
def issues_found (validation_results : List ValidationResult) : Nat :=
  (validation_results.filter (fun r => r.compliance_score < 80)).length

/-! ## Concrete oracles used in the claim instances -/

/-- A completion client that always succeeds, returning `c prompt`. -/
def okComplete (c : String → String) : Completion :=
  fun prompt => Except.ok (c prompt)

/-- Whether `prompt` starts with `head` (each validation prompt opens with
a role line naming its statement type, so a prompt's first line identifies
the agent that sent it). -/
def promptStartsWith (head prompt : String) : Bool :=
  head.data.isPrefixOf prompt.data

/-- The distinctive opening of the Cash Flow validation prompt. -/
def cash_flow_prompt_head : String :=
  "\n            You are an expert financial analyst specializing in Cash Flow"

/-- The distinctive opening of the Profit & Loss validation prompt. -/
def profit_loss_prompt_head : String :=
  "\n            You are an expert financial analyst specializing in Statement of Profit and Loss"

/-- A deterministic client that fails exactly on the Cash Flow agent's
prompt and answers "analysis ok" elsewhere. -/
def failCashFlowOracle : Completion := fun prompt =>
  if promptStartsWith cash_flow_prompt_head prompt then
    Except.error "boom"
  else
    Except.ok "analysis ok"

/-- A deterministic client whose three single-pass answers score
80 (Profit & Loss), 60 (Cash Flow) and 100 (Notes). -/
def sampleScoresOracle : Completion := fun prompt =>
  if promptStartsWith profit_loss_prompt_head prompt then
    Except.ok "compliant adequate proper"
  else if promptStartsWith cash_flow_prompt_head prompt then
    Except.ok "compliant"
  else
    Except.ok "compliant adequate proper correct complete"

/-- A standalone result record used to instantiate aggregate-score facts. -/
def sample_result : ValidationResult :=
  { agent := "Notes",
    analysis := some "ok",
    initial_analysis := none,
    refined_analysis := none,
    compliance_score := 80,
    timestamp := "2026-10-12T00:00:00" }

/-! ### Basic lemmas about `containsSub` -/

theorem containsSub_infix_equiv (needle hay : List Char) :
    containsSub needle hay = true ↔ needle <:+: hay := by
  induction hay with
  | nil =>
    simp [containsSub, List.isEmpty_iff, List.infix_nil]
  | cons c rest ih =>
    simp only [containsSub, Bool.or_eq_true, ih, List.isPrefixOf_iff_prefix]
    constructor
    · rintro (h | h)
      · exact h.isInfix
      · exact List.infix_cons h
    · intro h
      rcases List.infix_cons_iff.mp h with h | h
      · exact Or.inl h
      · exact Or.inr h

theorem markerIn_infix_equiv (indicator analysis_text : String) :
    markerIn indicator analysis_text = true ↔
      indicator.data <:+: analysis_text.data.map Char.toLower :=
  containsSub_infix_equiv _ _


/-! ### Helper lemmas about markers and the clamp -/

theorem markerIn_eq_decide (i t : String) :
    markerIn i t = decide (i.data <:+: t.data.map Char.toLower) := by
  by_cases h : i.data <:+: t.data.map Char.toLower
  · rw [(markerIn_infix_equiv i t).mpr h, decide_eq_true h]
  · have hm : markerIn i t ≠ true := fun hc => h ((markerIn_infix_equiv i t).mp hc)
    rw [Bool.eq_false_iff.mpr hm, decide_eq_false h]

theorem markerIn_mono {a b : String} (hab : a.data <:+: b.data) {t : String}
    (h : markerIn b t = true) : markerIn a t = true := by
  rw [markerIn_infix_equiv] at h ⊢
  exact hab.trans h

theorem clamp_bounds (s : Int) : 0 ≤ max 0 (min 100 s) ∧ max 0 (min 100 s) ≤ 100 :=
  ⟨le_max_left 0 _, max_le (by norm_num) (min_le_left 100 s)⟩

theorem score_bounds (t : String) :
    0 ≤ calculate_compliance_score t ∧ calculate_compliance_score t ≤ 100 :=
  clamp_bounds _

/-! ## Claim theorems about the score heuristic -/

/-- C1 (counterexample): the spec's occurrence-counting reading of the score
is refuted by the code's presence counting.  Ten occurrences of the positive
marker "proper" score 60 (one distinct marker present), not the claimed 100;
ten negative-marker occurrences ("missing" ×5, "error" ×5) score 20 (two
distinct markers present), not the claimed 0. -/
theorem score_occurrence_counterexample :
    calculate_compliance_score
        "proper proper proper proper proper proper proper proper proper proper" = 60
    ∧ spec_score_occurrences
        "proper proper proper proper proper proper proper proper proper proper" = 100
    ∧ calculate_compliance_score
        "missing missing missing missing missing error error error error error" = 20
    ∧ spec_score_occurrences
        "missing missing missing missing missing error error error error error" = 0 := by
  refine ⟨by decide, by decide, by decide, by decide⟩

/-- C1 (amended): the compliance score equals
`clamp(50 + 10*positiveCount - 15*negativeCount, 0, 100)` where the counts
are the numbers of *distinct* markers occurring in the case-folded text (a
marker appearing twice counts once).  A text containing all five positive
markers and no negative marker scores exactly 100; a text with ten
negative-marker occurrences spread over "missing" and "error" scores 20. -/
theorem score_presence_semantics :
    (∀ t : String, calculate_compliance_score t = spec_score_presence t)
    ∧ calculate_compliance_score "compliant adequate proper correct complete" = 100
    ∧ calculate_compliance_score
        "missing missing missing missing missing error error error error error" = 20 := by
  refine ⟨?_, by decide, by decide⟩
  intro t
  unfold calculate_compliance_score spec_score_presence
  have h : (fun m : String => decide (m.data <:+: t.data.map Char.toLower)) =
      fun m : String => markerIn m t :=
    funext fun m => (markerIn_eq_decide m t).symm
  simp only [List.countP_eq_length_filter, h]

/-- C8: the text "incomplete" contains both the positive marker "complete"
and the negative marker "incomplete", so it scores 50 + 10 - 15 = 45. -/
theorem score_incomplete_double_count :
    calculate_compliance_score "incomplete" = 45
    ∧ markerIn "complete" "incomplete" = true
    ∧ markerIn "incomplete" "incomplete" = true := by
  refine ⟨by decide, by decide, by decide⟩

/-- C9: "adequate" is a substring of "inadequate" and "compliant" of
"non-compliant"; a text containing "inadequate" (resp. "non-compliant") and
none of the other eight markers also triggers the positive marker
"adequate" (resp. "compliant") and scores 45, not 35. -/
theorem marker_overlap_inadequate_noncompliant :
    (∀ t : String, markerIn "inadequate" t = true →
      markerIn "compliant" t = false → markerIn "proper" t = false →
      markerIn "correct" t = false → markerIn "complete" t = false →
      markerIn "missing" t = false → markerIn "incomplete" t = false →
      markerIn "non-compliant" t = false → markerIn "error" t = false →
      markerIn "adequate" t = true ∧ calculate_compliance_score t = 45)
    ∧ (∀ t : String, markerIn "non-compliant" t = true →
      markerIn "adequate" t = false → markerIn "proper" t = false →
      markerIn "correct" t = false → markerIn "complete" t = false →
      markerIn "missing" t = false → markerIn "incomplete" t = false →
      markerIn "inadequate" t = false → markerIn "error" t = false →
      markerIn "compliant" t = true ∧ calculate_compliance_score t = 45) := by
  constructor
  · intro t h1 h2 h3 h4 h5 h6 h7 h8 h9
    have hadequate : markerIn "adequate" t = true := markerIn_mono (by decide) h1
    refine ⟨hadequate, ?_⟩
    unfold calculate_compliance_score positive_indicators negative_indicators
    simp [List.filter, h1, h2, h3, h4, h5, h6, h7, h8, h9, hadequate]
  · intro t h1 h2 h3 h4 h5 h6 h7 h8 h9
    have hcompliant : markerIn "compliant" t = true := markerIn_mono (by decide) h1
    refine ⟨hcompliant, ?_⟩
    unfold calculate_compliance_score positive_indicators negative_indicators
    simp [List.filter, h1, h2, h3, h4, h5, h6, h7, h8, h9, hcompliant]

/-- Witness for C9: instantiated at the one-marker texts "inadequate" and
"non-compliant" themselves, both scoring 45. -/
theorem marker_overlap_inadequate_noncompliant_witness :
    markerIn "adequate" "inadequate" = true
    ∧ calculate_compliance_score "inadequate" = 45
    ∧ markerIn "compliant" "non-compliant" = true
    ∧ calculate_compliance_score "non-compliant" = 45 := by
  have h1 := marker_overlap_inadequate_noncompliant.1 "inadequate"
    (by decide) (by decide) (by decide) (by decide) (by decide)
    (by decide) (by decide) (by decide) (by decide)
  have h2 := marker_overlap_inadequate_noncompliant.2 "non-compliant"
    (by decide) (by decide) (by decide) (by decide) (by decide)
    (by decide) (by decide) (by decide) (by decide)
  exact ⟨h1.1, h1.2, h2.1, h2.2⟩

/-! ### Helper lemmas about the orchestration loop -/

theorem runAgents_length (complete : Completion) (now financial_text : String) :
    ∀ names : List AgentName,
      (runAgents complete now financial_text names).validation_results.length +
        (runAgents complete now financial_text names).failures.length = names.length := by
  intro names
  induction names with
  | nil => rfl
  | cons a rest ih =>
    simp only [runAgents]
    cases h : (runAgentValidation complete now financial_text a).1 with
    | error e => simp only [List.length_cons]; omega
    | ok result => simp only [List.length_cons]; omega

theorem runAgentValidation_ok_score (complete : Completion) (now financial_text : String)
    (a : AgentName) (r : ValidationResult)
    (h : (runAgentValidation complete now financial_text a).1 = Except.ok r) :
    ∃ s : String, r.compliance_score = calculate_compliance_score s := by
  cases a with
  | balanceSheet =>
    simp only [runAgentValidation, validate_balance_sheet] at h
    split at h
    · simp at h
    · split at h
      · simp at h
      · simp only [Except.ok.injEq] at h
        exact ⟨_, by rw [← h]⟩
  | profitLoss =>
    simp only [runAgentValidation, validate_profit_loss] at h
    split at h
    · simp at h
    · simp only [Except.ok.injEq] at h
      exact ⟨_, by rw [← h]⟩
  | cashFlow =>
    simp only [runAgentValidation, validate_cash_flow] at h
    split at h
    · simp at h
    · simp only [Except.ok.injEq] at h
      exact ⟨_, by rw [← h]⟩
  | notes =>
    simp only [runAgentValidation, validate_notes] at h
    split at h
    · simp at h
    · simp only [Except.ok.injEq] at h
      exact ⟨_, by rw [← h]⟩

theorem runAgents_score_mem (complete : Completion) (now financial_text : String) :
    ∀ (names : List AgentName) (r : ValidationResult),
      r ∈ (runAgents complete now financial_text names).validation_results →
      0 ≤ r.compliance_score ∧ r.compliance_score ≤ 100 := by
  intro names
  induction names with
  | nil => intro r hr; simp [runAgents] at hr
  | cons a rest ih =>
    intro r hr
    simp only [runAgents] at hr
    cases h : (runAgentValidation complete now financial_text a).1 with
    | error e =>
      rw [h] at hr
      exact ih r hr
    | ok result =>
      rw [h] at hr
      rcases List.mem_cons.mp hr with hhead | htail
      · obtain ⟨s, hs⟩ := runAgentValidation_ok_score complete now financial_text a result h
        rw [hhead, hs]
        exact score_bounds s
      · exact ih r htail

/-! ## Claim theorems about the orchestrator -/

/-- C7: the score heuristic is pure and deterministic, two calls on the same
text agree, the score always lies in [0,100], and consequently every
ValidationResult collected by the orchestration loop has a compliance score
in [0,100]. -/
theorem score_deterministic_and_bounded :
    (∀ t : String, calculate_compliance_score t = calculate_compliance_score t)
    ∧ (∀ t : String, 0 ≤ calculate_compliance_score t ∧ calculate_compliance_score t ≤ 100)
    ∧ (∀ (complete : Completion) (now financial_text : String) (names : List AgentName)
        (r : ValidationResult),
        r ∈ (runAgents complete now financial_text names).validation_results →
        0 ≤ r.compliance_score ∧ r.compliance_score ≤ 100) :=
  ⟨fun _ => rfl, score_bounds, runAgents_score_mem⟩

/-- Witness for C7: a concrete one-agent run whose single result has its
score within bounds. -/
theorem score_deterministic_and_bounded_witness :
    0 ≤ ({ agent := "Notes", analysis := some "analysis ok", initial_analysis := none,
           refined_analysis := none,
           compliance_score := calculate_compliance_score "analysis ok",
           timestamp := "2026-10-12T00:00:00" } : ValidationResult).compliance_score
    ∧ ({ agent := "Notes", analysis := some "analysis ok", initial_analysis := none,
         refined_analysis := none,
         compliance_score := calculate_compliance_score "analysis ok",
         timestamp := "2026-10-12T00:00:00" } : ValidationResult).compliance_score ≤ 100 :=
  score_deterministic_and_bounded.2.2 (fun _ => Except.ok "analysis ok")
    "2026-10-12T00:00:00" "doc" [AgentName.notes] _ (List.Mem.head _)

/-- C2 (counterexample): running `main`'s loop with every checkbox cleared
does not fail with a configuration error: the loop body never executes, no
failure is recorded, no completion call is made, and the run completes
normally with an empty result list. -/
theorem empty_agent_set_counterexample :
    (run_validation (fun _ => Except.error "no call expected") "2026-10-12T00:00:00" "doc"
        ⟨false, false, false, false⟩).failures = []
    ∧ (run_validation (fun _ => Except.error "no call expected") "2026-10-12T00:00:00" "doc"
        ⟨false, false, false, false⟩).validation_results = []
    ∧ (run_validation (fun _ => Except.error "no call expected") "2026-10-12T00:00:00" "doc"
        ⟨false, false, false, false⟩).prompts = [] :=
  ⟨rfl, rfl, rfl⟩

/-- C2 (amended): with an empty enabled-agent set the orchestrator performs
zero completion calls and completes normally, returning an empty report and
recording no failure — it does not raise a configuration error. -/
theorem empty_agent_set_behavior (complete : Completion) (now financial_text : String) :
    run_validation complete now financial_text ⟨false, false, false, false⟩ =
      { validation_results := [], failures := [], prompts := [] } :=
  rfl

/-- C3: per-agent failure isolation.  In general the loop produces one
result or one recorded failure per enabled agent (it never aborts); with
all four agents enabled and a client that fails deterministically on
exactly the Cash Flow prompt, the run yields exactly 3 results, in order,
and one recorded failure for Cash Flow. -/
theorem orchestrator_failure_isolation :
    (∀ (complete : Completion) (now financial_text : String) (names : List AgentName),
        (runAgents complete now financial_text names).validation_results.length +
          (runAgents complete now financial_text names).failures.length = names.length)
    ∧ (∀ now : String,
        (run_validation failCashFlowOracle now "doc"
            ⟨true, true, true, true⟩).validation_results.length = 3
        ∧ (run_validation failCashFlowOracle now "doc"
            ⟨true, true, true, true⟩).validation_results.map (fun r => r.agent) =
            ["Balance Sheet", "Profit & Loss", "Notes"]
        ∧ (run_validation failCashFlowOracle now "doc" ⟨true, true, true, true⟩).failures =
            [("Cash Flow", "Error in Cash Flow validation: boom")]) :=
  ⟨runAgents_length, fun _ => ⟨rfl, rfl, rfl⟩⟩

/-- C6: for every checkbox configuration, the report's results appear in
the fixed canonical order Balance Sheet, Profit & Loss, Cash Flow, Notes
restricted to the enabled set (the enabled set is given by four fixed
checkboxes, so no other input order exists). -/
theorem report_canonical_order (complete : String → String) (now financial_text : String)
    (e : EnabledAgents) :
    (run_validation (okComplete complete) now financial_text e).validation_results.map
        (fun r => r.agent)
      = (canonical_agent_order.filter (isEnabled e)).map result_agent_label := by
  obtain ⟨b, pl, c, n⟩ := e
  cases b <;> cases pl <;> cases c <;> cases n <;> rfl

/-- C4: under a total completion client, the Balance Sheet `validate` makes
exactly two completion calls (initial validation, then self-reflection over
the initial output), exposes the initial and refined analyses distinctly,
and scores the refined (final) text; each other variant makes exactly one
call and scores its single analysis text. -/
theorem two_pass_balance_sheet_single_pass_others (complete : String → String)
    (now financial_text : String) :
    validate_balance_sheet (okComplete complete) now financial_text =
      (Except.ok
        { agent := "Balance Sheet",
          analysis := none,
          initial_analysis := some (complete (balance_sheet_validation_prompt financial_text
            (joinBullets balance_sheet_criteria))),
          refined_analysis := some (complete (self_reflection_prompt
            (complete (balance_sheet_validation_prompt financial_text
              (joinBullets balance_sheet_criteria))))),
          compliance_score := calculate_compliance_score (complete (self_reflection_prompt
            (complete (balance_sheet_validation_prompt financial_text
              (joinBullets balance_sheet_criteria))))),
          timestamp := now },
       [balance_sheet_validation_prompt financial_text (joinBullets balance_sheet_criteria),
        self_reflection_prompt (complete (balance_sheet_validation_prompt financial_text
          (joinBullets balance_sheet_criteria)))])
    ∧ (validate_balance_sheet (okComplete complete) now financial_text).2.length = 2
    ∧ validate_profit_loss (okComplete complete) now financial_text =
      (Except.ok
        { agent := "Profit & Loss",
          analysis := some (complete (profit_loss_validation_prompt financial_text
            (joinBullets profit_loss_criteria))),
          initial_analysis := none,
          refined_analysis := none,
          compliance_score := calculate_compliance_score (complete
            (profit_loss_validation_prompt financial_text (joinBullets profit_loss_criteria))),
          timestamp := now },
       [profit_loss_validation_prompt financial_text (joinBullets profit_loss_criteria)])
    ∧ (validate_profit_loss (okComplete complete) now financial_text).2.length = 1
    ∧ validate_cash_flow (okComplete complete) now financial_text =
      (Except.ok
        { agent := "Cash Flow",
          analysis := some (complete (cash_flow_validation_prompt financial_text
            (joinBullets cash_flow_criteria))),
          initial_analysis := none,
          refined_analysis := none,
          compliance_score := calculate_compliance_score (complete
            (cash_flow_validation_prompt financial_text (joinBullets cash_flow_criteria))),
          timestamp := now },
       [cash_flow_validation_prompt financial_text (joinBullets cash_flow_criteria)])
    ∧ (validate_cash_flow (okComplete complete) now financial_text).2.length = 1
    ∧ validate_notes (okComplete complete) now financial_text =
      (Except.ok
        { agent := "Notes",
          analysis := some (complete (notes_validation_prompt financial_text
            (joinBullets notes_criteria))),
          initial_analysis := none,
          refined_analysis := none,
          compliance_score := calculate_compliance_score (complete
            (notes_validation_prompt financial_text (joinBullets notes_criteria))),
          timestamp := now },
       [notes_validation_prompt financial_text (joinBullets notes_criteria)])
    ∧ (validate_notes (okComplete complete) now financial_text).2.length = 1 :=
  ⟨rfl, rfl, rfl, rfl, rfl, rfl, rfl, rfl⟩

/-- C5: the dashboard's aggregate score is the arithmetic mean of the
collected compliance scores (0 on an empty collection, with no division by
zero), and the issue count is the number of results scoring strictly below
80; a run producing scores [80, 60, 100] has aggregate exactly 80 and one
issue. -/
theorem aggregate_score_mean :
    (∀ rs : List ValidationResult, rs ≠ [] →
        overall_compliance rs * (rs.length : ℚ) =
          ((((rs.map (fun r => r.compliance_score)).sum : Int)) : ℚ))
    ∧ overall_compliance [] = 0
    ∧ (∀ now : String,
        (run_validation sampleScoresOracle now "doc"
            ⟨false, true, true, true⟩).validation_results.map (fun r => r.compliance_score) =
          [80, 60, 100]
        ∧ overall_compliance (run_validation sampleScoresOracle now "doc"
            ⟨false, true, true, true⟩).validation_results = 80
        ∧ issues_found (run_validation sampleScoresOracle now "doc"
            ⟨false, true, true, true⟩).validation_results = 1) := by
  refine ⟨?_, ?_, ?_⟩
  · intro rs h
    have hlen : ((rs.length : ℚ)) ≠ 0 := by
      exact_mod_cast fun hc => h (List.eq_nil_of_length_eq_zero (by exact_mod_cast hc))
    unfold overall_compliance
    rw [div_mul_cancel₀ _ hlen]
  · simp [overall_compliance]
  · intro now
    refine ⟨rfl, ?_, rfl⟩
    have hmap : (run_validation sampleScoresOracle now "doc"
        ⟨false, true, true, true⟩).validation_results.map (fun r => r.compliance_score) =
        [80, 60, 100] := rfl
    have hlen : (run_validation sampleScoresOracle now "doc"
        ⟨false, true, true, true⟩).validation_results.length = 3 := rfl
    unfold overall_compliance
    rw [hmap, hlen]
    norm_num

/-- Witness for C5: the mean property instantiated at a concrete singleton
result list. -/
theorem aggregate_score_mean_witness :
    overall_compliance [sample_result] * (([sample_result] : List ValidationResult).length : ℚ) =
      (((([sample_result] : List ValidationResult).map (fun r => r.compliance_score)).sum : Int) : ℚ) :=
  aggregate_score_mean.1 [sample_result] (List.cons_ne_nil _ _)

/-! ### Helper lemmas for claim C10 -/

theorem take_data_append (k : Nat) (s t : String) (h : k ≤ s.data.length) :
    (s ++ t).data.take k = s.data.take k := by
  rw [String.data_append]
  exact List.take_append_of_le_length h

set_option maxRecDepth 8000 in
theorem bs_prompt_ne_meta (financial_text criteria : String) :
    balance_sheet_validation_prompt financial_text criteria ≠
      meta_prompt_generator "Balance Sheet Validation"
        "Validate Balance Sheet compliance with Schedule III Division II requirements"
        balance_sheet_criteria := by
  intro e
  have h := congrArg (fun s : String => s.data.take 12) e
  simp only at h
  rw [balance_sheet_validation_prompt] at h
  rw [take_data_append 12 _ _ (by decide)] at h
  revert h
  decide

set_option maxRecDepth 8000 in
theorem reflection_prompt_ne_meta (validation_result : String) :
    self_reflection_prompt validation_result ≠
      meta_prompt_generator "Balance Sheet Validation"
        "Validate Balance Sheet compliance with Schedule III Division II requirements"
        balance_sheet_criteria := by
  intro e
  have h := congrArg (fun s : String => s.data.take 10) e
  simp only at h
  rw [self_reflection_prompt] at h
  rw [take_data_append 10 _ _ (by decide)] at h
  revert h
  decide

theorem validate_balance_sheet_prompts_shape (complete : Completion)
    (now financial_text : String) :
    ∀ p ∈ (validate_balance_sheet complete now financial_text).2,
      p = balance_sheet_validation_prompt financial_text (joinBullets balance_sheet_criteria)
      ∨ ∃ s : String, p = self_reflection_prompt s := by
  intro p hp
  simp only [validate_balance_sheet] at hp
  split at hp
  · simp only [List.mem_singleton] at hp
    exact Or.inl hp
  · split at hp
    · simp only [List.mem_cons, List.mem_singleton, List.not_mem_nil, or_false] at hp
      rcases hp with h | h
      · exact Or.inl h
      · exact Or.inr ⟨_, h⟩
    · simp only [List.mem_cons, List.mem_singleton, List.not_mem_nil, or_false] at hp
      rcases hp with h | h
      · exact Or.inl h
      · exact Or.inr ⟨_, h⟩

/-- C10: the meta prompt built at the start of `validate_balance_sheet` is
dead code: deleting its construction leaves the returned outcome (result
and completion-call trace) unchanged, and no prompt ever sent by
`validate_balance_sheet` equals the generated meta prompt. -/
theorem meta_prompt_dead_code (complete : Completion) (now financial_text : String) :
    validate_balance_sheet complete now financial_text =
      validate_balance_sheet_without_meta complete now financial_text
    ∧ (∀ p ∈ (validate_balance_sheet complete now financial_text).2,
        p ≠ meta_prompt_generator "Balance Sheet Validation"
          "Validate Balance Sheet compliance with Schedule III Division II requirements"
          balance_sheet_criteria) := by
  refine ⟨rfl, ?_⟩
  intro p hp
  rcases validate_balance_sheet_prompts_shape complete now financial_text p hp with h | ⟨s, h⟩
  · rw [h]
    exact bs_prompt_ne_meta financial_text (joinBullets balance_sheet_criteria)
  · rw [h]
    exact reflection_prompt_ne_meta s

/-- Witness for C10: the first prompt actually sent by a concrete
Balance Sheet validation differs from the generated meta prompt. -/
theorem meta_prompt_dead_code_witness :
    balance_sheet_validation_prompt "doc" (joinBullets balance_sheet_criteria) ≠
      meta_prompt_generator "Balance Sheet Validation"
        "Validate Balance Sheet compliance with Schedule III Division II requirements"
        balance_sheet_criteria :=
  (meta_prompt_dead_code (fun _ => Except.ok "analysis") "2026-10-12T00:00:00" "doc").2
    (balance_sheet_validation_prompt "doc" (joinBullets balance_sheet_criteria))
    (List.Mem.head _)

end FinMeta
